import Mathlib

/-!
Verification of the run-orchestration core of the `sui` stress/benchmark
harness.  The embedding follows the two provided source files:

* `src/crates/sui-benchmark/src/bin/stress.rs` — the orchestrator `main`,
  modelled below as `mainModel`, a function from the CLI options, the fate of
  the spawned client execution context and an abstract file system to the
  process outcome and an ordered trace of observable events;
* `src/crates/sui-config/src/p2p.rs` — `StateSyncConfig` / `DiscoveryConfig`
  with their default-resolving accessor methods, embedded directly.

Pieces of the repository that the claims need but that are not among the
provided sources (`RunInterval`, `WorkloadConfiguration::configure`,
`BenchmarkStats` and its serde round trip, `BenchDriver`) are modelled from
the specification; each such definition carries a doc comment starting with
`Modelled from the spec:`.
-/

/-! ## Network configuration (src/crates/sui-config/src/p2p.rs)

Rust's `std::time::Duration` is only used through `Duration::from_millis`,
so it is embedded as a millisecond count. -/

structure Duration where
  millis : Nat
deriving DecidableEq, Repr

def Duration.from_millis (ms : Nat) : Duration := ⟨ms⟩

/-- `StateSyncConfig` from p2p.rs.  Every tunable is optional in the
document (`Option`); the `u64`/`usize`/`NonZeroU32` payloads are embedded as
`Nat`.  Accessor methods whose source name collides with the field they read
carry a trailing apostrophe. -/
structure StateSyncConfig where
  interval_period_ms : Option Nat
  mailbox_capacity : Option Nat
  synced_checkpoint_broadcast_channel_capacity : Option Nat
  checkpoint_header_download_concurrency : Option Nat
  checkpoint_content_download_concurrency : Option Nat
  transaction_download_concurrency : Option Nat
  push_checkpoint_summary_rate_limit : Option Nat
  get_checkpoint_summary_rate_limit : Option Nat
  get_checkpoint_contents_rate_limit : Option Nat
  get_transaction_and_effects_rate_limit : Option Nat
deriving DecidableEq, Repr

def StateSyncConfig.interval_period (c : StateSyncConfig) : Duration :=
  Duration.from_millis (c.interval_period_ms.getD 5000)

def StateSyncConfig.mailbox_capacity' (c : StateSyncConfig) : Nat :=
  c.mailbox_capacity.getD 128

def StateSyncConfig.synced_checkpoint_broadcast_channel_capacity' (c : StateSyncConfig) : Nat :=
  c.synced_checkpoint_broadcast_channel_capacity.getD 128

def StateSyncConfig.checkpoint_header_download_concurrency' (c : StateSyncConfig) : Nat :=
  c.checkpoint_header_download_concurrency.getD 100

def StateSyncConfig.checkpoint_content_download_concurrency' (c : StateSyncConfig) : Nat :=
  c.checkpoint_content_download_concurrency.getD 100

def StateSyncConfig.transaction_download_concurrency' (c : StateSyncConfig) : Nat :=
  c.transaction_download_concurrency.getD 100

/-- `DiscoveryConfig` from p2p.rs. -/
structure DiscoveryConfig where
  interval_period_ms : Option Nat
  target_concurrent_connections : Option Nat
  peers_to_query : Option Nat
  get_external_address_rate_limit : Option Nat
  get_known_peers_rate_limit : Option Nat
deriving DecidableEq, Repr

def DiscoveryConfig.interval_period (c : DiscoveryConfig) : Duration :=
  Duration.from_millis (c.interval_period_ms.getD 5000)

def DiscoveryConfig.target_concurrent_connections' (c : DiscoveryConfig) : Nat :=
  c.target_concurrent_connections.getD 4

def DiscoveryConfig.peers_to_query' (c : DiscoveryConfig) : Nat :=
  c.peers_to_query.getD 1

/-- The `Default`-derived value of `StateSyncConfig`: every field absent. -/
def stateSyncAllAbsent : StateSyncConfig :=
  ⟨none, none, none, none, none, none, none, none, none, none⟩

/-- The `Default`-derived value of `DiscoveryConfig`: every field absent. -/
def discoveryAllAbsent : DiscoveryConfig :=
  ⟨none, none, none, none, none⟩

/-! ## RunInterval -/

/-- Modelled from the spec: `RunInterval` (its defining module is not among
the provided sources) is "either a bounded duration or an unbounded
sentinel"; `is_unbounded()` is the pure predicate recognising the
sentinel. -/
inductive RunInterval
  | bounded (seconds : Nat)
  | unbounded
deriving DecidableEq, Repr

def RunInterval.is_unbounded : RunInterval → Bool
  | RunInterval.bounded _ => false
  | RunInterval.unbounded => true

/-! ## BenchmarkStats, StressStats and the persisted JSON form -/

/-- Modelled from the spec: `BenchmarkStats` (its defining module is not
among the provided sources) holds "accumulated counters and latency
distributions for a completed run (committed/failed transaction counts by
workload type, latency percentiles, effective QPS)"; all numeric fields are
embedded as `Nat`. -/
structure BenchmarkStats where
  num_success : Nat
  num_error : Nat
  num_submitted : Nat
  latency_p50_ms : Nat
  latency_p99_ms : Nat
  effective_qps : Nat
  per_workload_success : List (String × Nat)
deriving DecidableEq, Repr

/-- Modelled from the spec: `StressStats` (its defining module is not among
the provided sources) tracks "lower-level system-stress indicators (e.g.,
error/retry rates under load)". -/
structure StressStats where
  num_retries : Nat
  num_stress_errors : Nat
deriving DecidableEq, Repr

/-- The empty/default `StressStats` value. -/
def defaultStressStats : StressStats := ⟨0, 0⟩

/-- A JSON-like document, the persisted form of `BenchmarkStats`. -/
inductive Json
  | jnum (n : Nat)
  | jstr (s : String)
  | jarr (xs : List Json)
  | jobj (fields : List (String × Json))

/-- Field lookup in a JSON object. -/
def jlookup (k : String) : List (String × Json) → Option Json
  | [] => none
  | (k2, v) :: rest => if k2 = k then some v else jlookup k rest

def asNum : Json → Option Nat
  | Json.jnum n => some n
  | _ => none

/-- One `(workload, count)` entry of the persisted per-workload table. -/
def encPair (kv : String × Nat) : Json :=
  Json.jarr [Json.jstr kv.1, Json.jnum kv.2]

def asPair : Json → Option (String × Nat)
  | Json.jarr [Json.jstr k, Json.jnum v] => some (k, v)
  | _ => none

def decodePairs : List Json → Option (List (String × Nat))
  | [] => some []
  | j :: rest =>
    match asPair j, decodePairs rest with
    | some p, some ps => some (p :: ps)
    | _, _ => none

/-- Modelled from the spec: serialization of `BenchmarkStats` to its
"canonical JSON-like document" (the serde implementation is not among the
provided sources); every field becomes one object entry. -/
def serializeStats (s : BenchmarkStats) : Json :=
  Json.jobj
    [("num-success", Json.jnum s.num_success),
     ("num-error", Json.jnum s.num_error),
     ("num-submitted", Json.jnum s.num_submitted),
     ("latency-p50-ms", Json.jnum s.latency_p50_ms),
     ("latency-p99-ms", Json.jnum s.latency_p99_ms),
     ("effective-qps", Json.jnum s.effective_qps),
     ("per-workload-success", Json.jarr (s.per_workload_success.map encPair))]

/-- Modelled from the spec: deserialization of the persisted document back
into `BenchmarkStats`; fails (`none`) when a field is missing or has the
wrong shape. -/
def deserializeStats (j : Json) : Option BenchmarkStats :=
  match j with
  | Json.jobj fields => do
    let a ← (jlookup "num-success" fields).bind asNum
    let b ← (jlookup "num-error" fields).bind asNum
    let c ← (jlookup "num-submitted" fields).bind asNum
    let d ← (jlookup "latency-p50-ms" fields).bind asNum
    let e ← (jlookup "latency-p99-ms" fields).bind asNum
    let f ← (jlookup "effective-qps" fields).bind asNum
    match jlookup "per-workload-success" fields with
    | some (Json.jarr pw) =>
      match decodePairs pw with
      | some ps => some ⟨a, b, c, d, e, f, ps⟩
      | none => none
    | _ => none
  | _ => none

theorem decodePairs_encPair (l : List (String × Nat)) :
    decodePairs (l.map encPair) = some l := by
  induction l with
  | nil => rfl
  | cons p rest ih => simp [decodePairs, encPair, asPair, ih]

/-! ## Combined-mode QPS partitioning -/

/-- Modelled from the spec: `WorkloadConfiguration::configure` (not among
the provided sources) "partitions a single target QPS across workload types
proportional to configured weights ... rounding deterministically (floor,
with remainder assigned to the first workload type in declaration order) so
the sum of per-workload QPS equals the configured total exactly".  The
result lists the per-workload QPS in declaration order. -/
def combinedQpsSplit (targetQps : Nat) (weights : List Nat) : List Nat :=
  match weights.map (fun wi => targetQps * wi / weights.sum) with
  | [] => []
  | f :: rest =>
    (f + (targetQps - (f :: rest).sum)) :: rest

theorem nat_div_add_div_le (a b c : Nat) : a / c + b / c ≤ (a + b) / c := by
  rcases Nat.eq_zero_or_pos c with hc | hc
  · simp [hc]
  · rw [Nat.le_div_iff_mul_le hc, Nat.add_mul]
    exact Nat.add_le_add (Nat.div_mul_le_self a c) (Nat.div_mul_le_self b c)

theorem sum_map_div_le (l : List Nat) (c : Nat) :
    (l.map (fun x => x / c)).sum ≤ l.sum / c := by
  induction l with
  | nil => simp
  | cons x rest ih =>
    simp only [List.map_cons, List.sum_cons]
    calc x / c + (rest.map (fun x => x / c)).sum
        ≤ x / c + rest.sum / c := Nat.add_le_add_left ih _
      _ ≤ (x + rest.sum) / c := nat_div_add_div_le x rest.sum c

theorem sum_map_mul_left' (q : Nat) (l : List Nat) :
    (l.map (fun x => q * x)).sum = q * l.sum := by
  induction l with
  | nil => simp
  | cons x rest ih => simp [ih, Nat.mul_add]

/-- The floors assigned by the Combined split never exceed the target. -/
theorem floors_sum_le (targetQps : Nat) (weights : List Nat)
    (hW : 0 < weights.sum) :
    (weights.map (fun wi => targetQps * wi / weights.sum)).sum ≤ targetQps := by
  have h1 : (weights.map (fun wi => targetQps * wi / weights.sum)).sum
      = ((weights.map (fun wi => targetQps * wi)).map
          (fun x => x / weights.sum)).sum := by
    rw [List.map_map]; rfl
  rw [h1]
  calc ((weights.map (fun wi => targetQps * wi)).map (fun x => x / weights.sum)).sum
      ≤ (weights.map (fun wi => targetQps * wi)).sum / weights.sum :=
        sum_map_div_le _ _
    _ = targetQps * weights.sum / weights.sum := by rw [sum_map_mul_left']
    _ = targetQps := Nat.mul_div_cancel targetQps hW

/-! ## The orchestrator (src/crates/sui-benchmark/src/bin/stress.rs)

`main` is straight-line code plus one spawned client thread that is joined
immediately.  It is embedded as `mainModel`, a function of

* the CLI options relevant to the orchestration core,
* the fate of the client execution context (panic / driver error / driver
  result), standing for everything that happens inside the spawned thread
  beyond what `main` itself sequences, and
* an abstract file system mapping a path to the parsed JSON document of the
  file at that path (`none` = unreadable),

returning the process result together with the ordered trace of observable
events of the run. -/

/-- `WorkloadConfiguration` selected in stress.rs from `opts.disjoint_mode`. -/
inductive WorkloadConfiguration
  | Disjoint
  | Combined
deriving DecidableEq, Repr

/-- The options of `Opts` consumed by the orchestration core of stress.rs. -/
structure Opts where
  num_client_threads : Nat
  stat_collection_interval : Nat
  stress_stat_collection : Bool
  disjoint_mode : Bool
  run_duration : RunInterval
  compare_with : String
  benchmark_stats_path : String
deriving DecidableEq, Repr

/-- Observable events of a run of `main`, in program order. -/
inductive Event
  | envSetup
  | barrierWait
  | spawnClient
  | configureWorkloads (cfg : WorkloadConfiguration)
  | driverRun (show_progress : Bool) (interval : RunInterval) (collect : Bool)
  | printBenchmarkReport
  | printStressReport
  | readCompare (path : String)
  | printCmpReport (path : String)
  | writeStats (path : String)
deriving DecidableEq, Repr

/-- How the spawned client execution context ends: `panicked` models
`handle.join()` returning `Err` (abnormal termination), `workloadError`
models the driver returning `Err` inside the thread, `completed` carries the
raw `(BenchmarkStats, StressStats)` the driver produced. -/
inductive ClientFate
  | panicked
  | workloadError (msg : String)
  | completed (raw : BenchmarkStats × StressStats)

/-- Outcome of `main`: `ok` is exit code 0; `joinError` is the
`Err(anyhow!("Failed to join client runtime: ..."))` branch;
`persistenceError` is an early `Err` return from a failed `?` in the
compare/persist tail; `panicked` models the `.unwrap()` on the inner driver
result aborting the process. -/
inductive MainResult
  | ok
  | joinError (msg : String)
  | persistenceError
  | panicked
deriving DecidableEq, Repr

structure MainOut where
  result : MainResult
  trace : List Event
  finalStats : Option (BenchmarkStats × StressStats)

/-- Modelled from the spec: `BenchDriver` (not among the provided sources)
populates `StressStats` "only when stress-stat-collection was requested;
otherwise StressStats is an empty/default value". -/
def driverStress (collect : Bool) (raw : StressStats) : StressStats :=
  if collect then raw else defaultStressStats

/-- Events of `main` up to and including spawning the client thread:
environment setup, the orchestrator's `barrier.wait().await`, then
`std::thread::spawn`. -/
def preTrace : List Event :=
  [Event.envSetup, Event.barrierWait, Event.spawnClient]

/-- Events inside the spawned client thread: workload configuration, then
`driver.run(workloads, proxy, registry, show_progress, interval)` with
`show_progress = interval.is_unbounded()` (stress.rs line 103). -/
def clientTrace (opts : Opts) : List Event :=
  [Event.configureWorkloads
     (if opts.disjoint_mode then WorkloadConfiguration.Disjoint
      else WorkloadConfiguration.Combined),
   Event.driverRun opts.run_duration.is_unbounded opts.run_duration
     opts.stress_stat_collection]

/-- The `if !curr_benchmark_stats_path.is_empty() { ... fs::write ... }`
tail of `main`. -/
def writeStep (opts : Opts) (t : List Event) : MainResult × List Event :=
  if opts.benchmark_stats_path = "" then (MainResult.ok, t)
  else (MainResult.ok, t ++ [Event.writeStats opts.benchmark_stats_path])

/-- The reporting tail of `main` (stress.rs lines 120-149): print the
benchmark table, optionally the stress table, then the comparison step
guarded by `!prev_benchmark_stats_path.is_empty()` (whose failed `?` returns
early), then the persistence step. -/
def reportTail (opts : Opts) (fs : String → Option Json) :
    MainResult × List Event :=
  let t1 := [Event.printBenchmarkReport]
  let t2 := if opts.stress_stat_collection
    then t1 ++ [Event.printStressReport] else t1
  if opts.compare_with = "" then writeStep opts t2
  else
    let t3 := t2 ++ [Event.readCompare opts.compare_with]
    match (fs opts.compare_with).bind deserializeStats with
    | none => (MainResult.persistenceError, t3)
    | some _prev => writeStep opts (t3 ++ [Event.printCmpReport opts.compare_with])

/-- The embedding of `main`: setup, barrier wait, spawn, join, report. -/
def mainModel (opts : Opts) (fate : ClientFate) (fs : String → Option Json) :
    MainOut :=
  match fate with
  | ClientFate.panicked =>
    { result := MainResult.joinError "Failed to join client runtime",
      trace := preTrace, finalStats := none }
  | ClientFate.workloadError _ =>
    { result := MainResult.panicked,
      trace := preTrace ++ clientTrace opts, finalStats := none }
  | ClientFate.completed raw =>
    let stats := (raw.1, driverStress opts.stress_stat_collection raw.2)
    let tail := reportTail opts fs
    { result := tail.1,
      trace := preTrace ++ clientTrace opts ++ tail.2,
      finalStats := some stats }

/-- `precedes p q l = true` iff the first `p`-event of `l` occurs strictly
before any `q`-event (vacuously true when `l` has no `q`-event). -/
def precedes (p q : Event → Bool) : List Event → Bool
  | [] => true
  | e :: rest => if q e then false else if p e then true else precedes p q rest

def isBarrierWait : Event → Bool
  | Event.barrierWait => true
  | _ => false

def isSpawnClient : Event → Bool
  | Event.spawnClient => true
  | _ => false

def isDriverRun : Event → Bool
  | Event.driverRun _ _ _ => true
  | _ => false

def isReadCompare : Event → Bool
  | Event.readCompare _ => true
  | _ => false

/-- `beforeRead target l = true` iff `target` occurs in `l` strictly before
any `readCompare` event. -/
def beforeRead (target : Event) : List Event → Bool
  | [] => false
  | e :: rest =>
    if isReadCompare e then false
    else if e = target then true
    else beforeRead target rest

/-! ## Sample values used by witnesses and counterexamples -/

/-- A sample raw driver result. -/
def rawSample : BenchmarkStats × StressStats :=
  (⟨1000, 0, 1000, 10, 50, 100, [("transfer-object", 1000)]⟩, ⟨3, 1⟩)

/-- A file system on which every read fails. -/
def fsUnreadable : String → Option Json := fun _ => none

/-- Options with an unreadable `--compare-with` file and a non-empty
`--benchmark-stats-path`. -/
def optsCmpFail : Opts :=
  { num_client_threads := 12, stat_collection_interval := 1,
    stress_stat_collection := false, disjoint_mode := false,
    run_duration := RunInterval.bounded 60,
    compare_with := "prev-stats.json",
    benchmark_stats_path := "new-stats.json" }

/-- Options with an unreadable `--compare-with` file and stress-stat
collection requested. -/
def optsC5 : Opts :=
  { num_client_threads := 12, stat_collection_interval := 1,
    stress_stat_collection := true, disjoint_mode := false,
    run_duration := RunInterval.bounded 60,
    compare_with := "prev-stats.json",
    benchmark_stats_path := "" }

/-- Options for an unbounded run with no stats files. -/
def optsUnbounded : Opts :=
  { num_client_threads := 12, stat_collection_interval := 1,
    stress_stat_collection := false, disjoint_mode := false,
    run_duration := RunInterval.unbounded, compare_with := "",
    benchmark_stats_path := "" }

/-! ## Claims -/

/-- C6: for a `StateSyncConfig` with all optional fields absent,
`interval_period()` resolves to 5000 ms, `mailbox_capacity()` to 128 and
`checkpoint_header_download_concurrency()` to 100; for a `DiscoveryConfig`
with all optional fields absent, `target_concurrent_connections()` resolves
to 4 and `peers_to_query()` to 1. -/
theorem c6_config_defaults (s : StateSyncConfig) (d : DiscoveryConfig)
    (h1 : s.interval_period_ms = none) (h2 : s.mailbox_capacity = none)
    (h3 : s.checkpoint_header_download_concurrency = none)
    (h4 : d.target_concurrent_connections = none)
    (h5 : d.peers_to_query = none) :
    s.interval_period = Duration.from_millis 5000 ∧
    s.mailbox_capacity' = 128 ∧
    s.checkpoint_header_download_concurrency' = 100 ∧
    d.target_concurrent_connections' = 4 ∧
    d.peers_to_query' = 1 := by
  refine ⟨?_, ?_, ?_, ?_, ?_⟩ <;>
    simp [StateSyncConfig.interval_period, StateSyncConfig.mailbox_capacity',
      StateSyncConfig.checkpoint_header_download_concurrency',
      DiscoveryConfig.target_concurrent_connections',
      DiscoveryConfig.peers_to_query', h1, h2, h3, h4, h5]

theorem c6_config_defaults_witness :
    stateSyncAllAbsent.interval_period = Duration.from_millis 5000 ∧
    stateSyncAllAbsent.mailbox_capacity' = 128 ∧
    stateSyncAllAbsent.checkpoint_header_download_concurrency' = 100 ∧
    discoveryAllAbsent.target_concurrent_connections' = 4 ∧
    discoveryAllAbsent.peers_to_query' = 1 :=
  c6_config_defaults stateSyncAllAbsent discoveryAllAbsent rfl rfl rfl rfl rfl

/-- C4: deserializing the JSON serialization of any valid `BenchmarkStats`
value yields the original value — the persisted-stats round trip is lossless
for all fields. -/
theorem c4_stats_roundtrip (s : BenchmarkStats) :
    deserializeStats (serializeStats s) = some s := by
  cases s with
  | mk a b c d e f ps =>
    simp [serializeStats, deserializeStats, jlookup, asNum, decodePairs_encPair]

/-- C3: for a Combined configuration with a non-empty weight list summing to
a positive `W` and target QPS `Q`, every workload after the first is
assigned `Q * wi / W` (floor division), the first workload is assigned its
floor share plus the remainder `Q - Σ floors`, and the per-workload QPS
values sum to exactly `Q`. -/
theorem c3_combined_qps_split (targetQps w : Nat) (rest : List Nat)
    (hW : 0 < (w :: rest).sum) :
    (combinedQpsSplit targetQps (w :: rest)).sum = targetQps ∧
    combinedQpsSplit targetQps (w :: rest) =
      (targetQps * w / (w :: rest).sum +
        (targetQps -
          ((w :: rest).map (fun wi => targetQps * wi / (w :: rest).sum)).sum)) ::
      rest.map (fun wi => targetQps * wi / (w :: rest).sum) := by
  have hle := floors_sum_le targetQps (w :: rest) hW
  constructor
  · simp only [combinedQpsSplit, List.map_cons, List.sum_cons] at hle ⊢
    omega
  · simp only [combinedQpsSplit, List.map_cons, List.sum_cons]

theorem c3_combined_qps_split_witness :
    0 < ([50, 50] : List Nat).sum ∧
    (combinedQpsSplit 100 [50, 50]).sum = 100 ∧
    combinedQpsSplit 100 [50, 50] = [50, 50] :=
  ⟨by decide, (c3_combined_qps_split 100 50 [50] (by decide)).1, by decide⟩

/-- C1: in every run, the orchestrator's `barrier.wait()` occurs in the
trace strictly before the client thread is spawned and strictly before
`BenchDriver::run` is invoked, so no transaction request can reach the
ValidatorProxy (all dispatch happens inside `driverRun`) before the
two-party rendezvous completes. -/
theorem c1_rendezvous_before_dispatch (opts : Opts) (fate : ClientFate)
    (fs : String → Option Json) :
    Event.barrierWait ∈ (mainModel opts fate fs).trace ∧
    Event.spawnClient ∈ (mainModel opts fate fs).trace ∧
    precedes isBarrierWait isSpawnClient (mainModel opts fate fs).trace = true ∧
    precedes isBarrierWait isDriverRun (mainModel opts fate fs).trace = true := by
  cases fate <;>
    simp [mainModel, preTrace, clientTrace, precedes, isBarrierWait,
      isSpawnClient, isDriverRun]

/-- C2: the `show_progress` flag passed to `BenchDriver::run` is exactly
`interval.is_unbounded()` for the `RunInterval` chosen by the orchestrator:
the driver is invoked with that flag, and every invocation recorded in any
trace carries `show_progress = interval.is_unbounded()`. -/
theorem c2_show_progress_iff_unbounded (opts : Opts)
    (raw : BenchmarkStats × StressStats) (fs : String → Option Json) :
    Event.driverRun opts.run_duration.is_unbounded opts.run_duration
        opts.stress_stat_collection
      ∈ (mainModel opts (ClientFate.completed raw) fs).trace ∧
    ∀ fate sp iv c,
      Event.driverRun sp iv c ∈ (mainModel opts fate fs).trace →
        sp = iv.is_unbounded := by
  constructor
  · simp [mainModel, preTrace, clientTrace]
  · intro fate sp iv c h
    cases fate with
    | panicked => simp [mainModel, preTrace] at h
    | workloadError m =>
      simp [mainModel, preTrace, clientTrace] at h
      obtain ⟨h1, h2, h3⟩ := h
      rw [h1, h2]
    | completed raw2 =>
      have hnr : Event.driverRun sp iv c ∉ (reportTail opts fs).2 := by
        unfold reportTail writeStep
        by_cases h0 : opts.stress_stat_collection <;>
        by_cases h1 : opts.compare_with = "" <;>
        by_cases h2 : opts.benchmark_stats_path = "" <;>
        cases hfd : (fs opts.compare_with).bind deserializeStats <;>
          simp [h0, h1, h2, hfd]
      simp [mainModel, preTrace, clientTrace, hnr] at h
      obtain ⟨h1, h2, h3⟩ := h
      rw [h1, h2]

theorem c2_show_progress_witness :
    (true : Bool) = RunInterval.is_unbounded RunInterval.unbounded :=
  (c2_show_progress_iff_unbounded optsUnbounded rawSample fsUnreadable).2
    (ClientFate.completed rawSample) true RunInterval.unbounded false (by decide)

/-- C7: when joining the client execution context fails, `main` returns the
dedicated join error — a `MainResult` distinct from the outcome of any
workload-reported failure — the process does not end in `ok`, and no report
table is printed. -/
theorem c7_join_failure_distinct (opts : Opts) (fs : String → Option Json)
    (m : String) :
    (mainModel opts ClientFate.panicked fs).result =
      MainResult.joinError "Failed to join client runtime" ∧
    (mainModel opts ClientFate.panicked fs).result ≠
      (mainModel opts (ClientFate.workloadError m) fs).result ∧
    (mainModel opts ClientFate.panicked fs).result ≠ MainResult.ok ∧
    Event.printBenchmarkReport ∉ (mainModel opts ClientFate.panicked fs).trace ∧
    Event.printStressReport ∉ (mainModel opts ClientFate.panicked fs).trace ∧
    ∀ p, Event.printCmpReport p ∉ (mainModel opts ClientFate.panicked fs).trace := by
  simp [mainModel, preTrace]

/-- C5: if the `--compare-with` file cannot be read or parsed, the run ends
in the persistence error (non-zero exit), but both the benchmark report and
— when requested — the stress report were already printed strictly before
the comparison file was touched. -/
theorem c5_compare_failure_preserves_report (opts : Opts)
    (raw : BenchmarkStats × StressStats) (fs : String → Option Json)
    (h1 : opts.compare_with ≠ "")
    (h2 : (fs opts.compare_with).bind deserializeStats = none) :
    (mainModel opts (ClientFate.completed raw) fs).result =
      MainResult.persistenceError ∧
    (mainModel opts (ClientFate.completed raw) fs).result ≠ MainResult.ok ∧
    beforeRead Event.printBenchmarkReport
      (mainModel opts (ClientFate.completed raw) fs).trace = true ∧
    (opts.stress_stat_collection = true →
      beforeRead Event.printStressReport
        (mainModel opts (ClientFate.completed raw) fs).trace = true) := by
  by_cases h0 : opts.stress_stat_collection <;>
    simp [mainModel, reportTail, writeStep, preTrace, clientTrace, beforeRead,
      isReadCompare, h0, h1, h2]

theorem c5_compare_failure_witness :
    optsC5.compare_with ≠ "" ∧
    (fsUnreadable optsC5.compare_with).bind deserializeStats = none ∧
    (mainModel optsC5 (ClientFate.completed rawSample) fsUnreadable).result =
      MainResult.persistenceError ∧
    beforeRead Event.printBenchmarkReport
      (mainModel optsC5 (ClientFate.completed rawSample) fsUnreadable).trace
      = true ∧
    beforeRead Event.printStressReport
      (mainModel optsC5 (ClientFate.completed rawSample) fsUnreadable).trace
      = true :=
  ⟨by decide, rfl,
   (c5_compare_failure_preserves_report optsC5 rawSample fsUnreadable
      (by decide) rfl).1,
   (c5_compare_failure_preserves_report optsC5 rawSample fsUnreadable
      (by decide) rfl).2.2.1,
   (c5_compare_failure_preserves_report optsC5 rawSample fsUnreadable
      (by decide) rfl).2.2.2 rfl⟩

/-- C8: whenever the client context completes with driver output, the
benchmark report is printed; the stress report is printed if and only if
stress-stat collection was requested; and the resulting `StressStats` is the
driver's value when collection was requested and the empty/default value
otherwise (`driverStress false` is the default value). -/
theorem c8_reports_and_stress_default (opts : Opts)
    (raw : BenchmarkStats × StressStats) (fs : String → Option Json) :
    Event.printBenchmarkReport
      ∈ (mainModel opts (ClientFate.completed raw) fs).trace ∧
    (Event.printStressReport
        ∈ (mainModel opts (ClientFate.completed raw) fs).trace ↔
      opts.stress_stat_collection = true) ∧
    (mainModel opts (ClientFate.completed raw) fs).finalStats =
      some (raw.1, driverStress opts.stress_stat_collection raw.2) ∧
    driverStress false raw.2 = defaultStressStats := by
  by_cases h0 : opts.stress_stat_collection <;>
  by_cases h1 : opts.compare_with = "" <;>
  by_cases h2 : opts.benchmark_stats_path = "" <;>
  cases hfd : (fs opts.compare_with).bind deserializeStats <;>
    simp [mainModel, reportTail, writeStep, preTrace, clientTrace,
      driverStress, h0, h1, h2, hfd]

/-- C9: when the `--compare-with` file is set but cannot be read or parsed,
no `writeStats` event occurs — the freshly computed stats are never
persisted, even when `--benchmark-stats-path` was provided. -/
theorem c9_no_persist_after_compare_failure (opts : Opts)
    (raw : BenchmarkStats × StressStats) (fs : String → Option Json)
    (h1 : opts.compare_with ≠ "")
    (h2 : (fs opts.compare_with).bind deserializeStats = none) :
    ∀ p, Event.writeStats p ∉
      (mainModel opts (ClientFate.completed raw) fs).trace := by
  intro p
  by_cases h0 : opts.stress_stat_collection <;>
    simp [mainModel, reportTail, writeStep, preTrace, clientTrace, h0, h1, h2]

theorem c9_no_persist_witness :
    optsCmpFail.compare_with ≠ "" ∧
    optsCmpFail.benchmark_stats_path ≠ "" ∧
    Event.writeStats "new-stats.json" ∉
      (mainModel optsCmpFail (ClientFate.completed rawSample) fsUnreadable).trace :=
  ⟨by decide, by decide,
   c9_no_persist_after_compare_failure optsCmpFail rawSample fsUnreadable
     (by decide) rfl "new-stats.json"⟩

/-- C10 counterexample: a run whose `--benchmark-stats-path` is the
non-empty string "new-stats.json" but whose unreadable `--compare-with` file
makes the comparison step fail performs no write at all, refuting "the new
stats are written to disk if and only if `--benchmark-stats-path` is a
non-empty string" as stated. -/
theorem c10_counterexample_write_skipped :
    optsCmpFail.benchmark_stats_path ≠ "" ∧
    Event.writeStats "new-stats.json" ∉
      (mainModel optsCmpFail (ClientFate.completed rawSample) fsUnreadable).trace := by
  constructor
  · decide
  · decide

/-- C10 (amended): in a run that reaches the reporting stage, the comparison
step is attempted if and only if `--compare-with` is non-empty, and the new
stats are written to disk if and only if `--benchmark-stats-path` is
non-empty AND the comparison step, when performed, succeeded. -/
theorem c10_amended_sentinels (opts : Opts)
    (raw : BenchmarkStats × StressStats) (fs : String → Option Json) :
    ((∃ s, Event.readCompare s
        ∈ (mainModel opts (ClientFate.completed raw) fs).trace) ↔
      opts.compare_with ≠ "") ∧
    ((∃ p, Event.writeStats p
        ∈ (mainModel opts (ClientFate.completed raw) fs).trace) ↔
      (opts.benchmark_stats_path ≠ "" ∧
        (opts.compare_with = "" ∨
          ∃ prev, (fs opts.compare_with).bind deserializeStats = some prev))) := by
  by_cases h0 : opts.stress_stat_collection <;>
  by_cases h1 : opts.compare_with = "" <;>
  by_cases h2 : opts.benchmark_stats_path = "" <;>
  cases hfd : (fs opts.compare_with).bind deserializeStats <;>
    simp [mainModel, reportTail, writeStep, preTrace, clientTrace,
      h0, h1, h2, hfd]
